import Mathlib

/-!
# Verification of `image_decoder_pipe.py` (OpenWebUI Base64 image decoder pipe)

Shallow embedding of the single source file `src/image_decoder_pipe.py`.
The pipe has three parts:

* the outbound request body built in `Pipe.pipe` (a Python dict display
  `{"model": …, "messages": …, "stream": …, **body}`);
* the recursive Base64 locator `Pipe._find_base64_in_response`;
* the outer `try/except` control flow of `Pipe.pipe`, which talks to the
  network through `aiohttp` and classifies the outcome.

JSON values are modelled by the inductive `Json`; Python dicts are modelled
as insertion-ordered association lists (Python 3.7+ dicts preserve insertion
order, which is the order `dict.items()` iterates in).
-/

set_option autoImplicit false

namespace ImageDecoderPipe

/-- A parsed JSON value, as Python's `json` module produces it: object
(insertion-ordered dict), array, string, number, boolean, null. -/
inductive Json where
  | str (s : String)
  | num (n : Int)
  | bool (b : Bool)
  | null
  | arr (items : List Json)
  | obj (entries : List (String × Json))

/-- Python's `needle in haystack` on strings: `needle` occurs as a contiguous
substring of `haystack` (case-sensitive). -/
def pyStrIn (needle haystack : String) : Bool :=
  go needle.toList haystack.toList
where
  /-- Naive substring search over character lists. -/
  go (pat : List Char) : List Char → Bool
    | [] => pat.isEmpty
    | c :: tl => pat.isPrefixOf (c :: tl) || go pat tl

/-- `"b64" in key or "base64" in key or "image" in key` from line 79:
case-sensitive substring test on the dict key. -/
def keyHit (key : String) : Bool :=
  pyStrIn "b64" key || pyStrIn "base64" key || pyStrIn "image" key

/-- The fast-path heuristic of lines 79–82: a dict value qualifies when it is
a string, its key contains `"b64"`, `"base64"` or `"image"`, and its length
exceeds 100 characters.  Returns the string exactly when the Python code
executes `return value` there. -/
def fastHit (key : String) (value : Json) : Option String :=
  match value with
  | .str s => if keyHit key && decide (s.length > 100) then some s else none
  | _ => none

/-- Python truthiness of an `Optional[str]`, used by `if found:` on lines
86 and 91: `None` and the empty string are falsy. -/
def pyTruthy : Option String → Bool
  | none => false
  | some s => s != ""

/-- `Pipe._find_base64_in_response` (lines 71–93), translated clause by
clause.  The Python `for` loops over `data.items()` / the list become
recursion over the remaining entries (`.obj rest` / `.arr rest`): for a dict,
each entry is first tried against the fast path (lines 79–82), then recursed
into (lines 85–87); for a list, each item is recursed into (lines 89–92);
any other value returns `None` (line 93). -/
def find_base64_in_response : Json → Option String
  | .str _ => none
  | .num _ => none
  | .bool _ => none
  | .null => none
  | .obj [] => none
  | .obj ((k, v) :: rest) =>
    match fastHit k v with
    | some s => some s
    | none =>
      let found := find_base64_in_response v
      if pyTruthy found then found else find_base64_in_response (.obj rest)
  | .arr [] => none
  | .arr (item :: rest) =>
    let found := find_base64_in_response item
    if pyTruthy found then found else find_base64_in_response (.arr rest)

/-- The qualifying strings of a tree in the order the locator's depth-first
pre-order traversal encounters them: for a dict entry, the fast-path hit on
the entry itself comes first, then the hits inside its value, then the hits
of the later entries; for a list, hits of the items in order. -/
def qualStrings : Json → List String
  | .str _ => []
  | .num _ => []
  | .bool _ => []
  | .null => []
  | .obj [] => []
  | .obj ((k, v) :: rest) =>
    (fastHit k v).toList ++ qualStrings v ++ qualStrings (.obj rest)
  | .arr [] => []
  | .arr (item :: rest) => qualStrings item ++ qualStrings (.arr rest)

/-- All key/value pairs appearing as a direct entry of some dict anywhere in
the tree, in pre-order. -/
def allEntries : Json → List (String × Json)
  | .str _ => []
  | .num _ => []
  | .bool _ => []
  | .null => []
  | .obj [] => []
  | .obj ((k, v) :: rest) => (k, v) :: (allEntries v ++ allEntries (.obj rest))
  | .arr [] => []
  | .arr (item :: rest) => allEntries item ++ allEntries (.arr rest)

/-! ## Python dict semantics for the outbound request body

The dict display on lines 114–119,
`payload = { "model": model_id, "messages": body.get("messages", []),
"stream": body.get("stream", False), **body }`, assigns keys left to right
into a fresh dict; a later assignment of an existing key overwrites its value
in place (keeping the key's original position).  In particular the `**body`
expansion, coming last, overwrites the three explicit assignments whenever
`body` itself carries the same key. -/

/-- Assign `k ↦ v` into an insertion-ordered dict: overwrite in place when
`k` is present (dict keys are unique), otherwise append at the end. -/
def pyDictAssign : List (String × Json) → String → Json → List (String × Json)
  | [], k, v => [(k, v)]
  | p :: tl, k, v => if p.1 == k then (k, v) :: tl else p :: pyDictAssign tl k v

/-- Dict lookup, `d[k]` as a total function into `Option`. -/
def pyLookup (d : List (String × Json)) (k : String) : Option Json :=
  (d.find? (fun p => p.1 == k)).map (fun p => p.2)

/-- Python's `d.get(k, default)`. -/
def pyGet (d : List (String × Json)) (k : String) (default : Json) : Json :=
  (pyLookup d k).getD default

/-- The `payload` dict of lines 114–119: the three explicit keys assigned
first, then every key of `body` assigned over them in `body`'s order. -/
def buildPayload (model_id : String) (body : List (String × Json)) :
    List (String × Json) :=
  let base := pyDictAssign (pyDictAssign (pyDictAssign [] "model" (.str model_id))
    "messages" (pyGet body "messages" (.arr []))) "stream" (pyGet body "stream" (.bool false))
  body.foldl (fun acc p => pyDictAssign acc p.1 p.2) base

/-! ## The `pipe` control flow

`Pipe.pipe` (lines 95–150) is an async generator.  Its interaction with the
network is modelled by an `HttpOutcome` oracle describing what the single
`session.post` exchange produced; the generator's externally visible
behaviour is the list of strings it yields, or the exception it raises to
the host.  Whether and with what payload `session.post` was invoked is
recorded in the run record. -/

/-- Outcome of the one `session.post(...)` exchange, as seen by the code:
either a transport-level failure (connection refused, timeout, DNS…) raised
as some exception, or a response with a status code and a body text.
`bodyJson` is the JSON parse of `bodyText`: `some tree` when the body parses,
`none` when `await response.json()` raises `json.JSONDecodeError`. -/
inductive HttpOutcome where
  | transportError (desc : String)
  | response (status : Nat) (bodyText : String) (bodyJson : Option Json)

/-- Python exceptions that can escape the generator unhandled. -/
inductive PyExn where
  | attributeError (desc : String)

/-- Externally visible behaviour of one `pipe` invocation: the strings it
yields, or the exception it raises to the host. -/
inductive PipeResult where
  | yields (msgs : List String)
  | raises (e : PyExn)

/-- One run of `pipe`: its visible result plus the payload it POSTed
(`none` when no network call was made). -/
structure PipeRun where
  result : PipeResult
  posted : Option (List (String × Json))

/-- The admin-configurable valves of the pipe (lines 35–54); only the three
fields read by `pipe` are modelled. -/
structure Valves where
  API_URL : String
  API_KEY : String
  MODEL_ID : String

/-- Line 105: the configuration-error message. -/
def configErrorMsg : String :=
  "错误：Pipe配置不完整。请在管理员后台设置 'API_URL' 和 'MODEL_ID'。"

/-- Line 137: the locator-miss message. -/
def locatorMissMsg : String :=
  "错误：API成功返回，但在JSON响应中未能找到有效的Base64图像数据。"

/-- Python `text[:500]`: the first 500 characters. -/
def pySlice500 (s : String) : String :=
  String.mk (s.toList.take 500)

/-- Line 147: the JSON-parse-error message, carrying `raw_text[:500]`. -/
def parseErrorMsg (rawText : String) : String :=
  "错误：无法将API响应解析为JSON。收到的原始文本：'" ++ pySlice500 rawText ++ "...'"

/-- Line 150: the catch-all message `"发生未知错误: " + str(e) + "\n" + traceback`;
the traceback text is abstracted away (no claim depends on it). -/
def unknownErrorMsg (desc : String) : String :=
  "发生未知错误: " ++ desc ++ "\n"

/-- Line 134: the f-string `f"data:image/png;base64,{base64_data}"`. -/
def formatDataUrl (payload : String) : String :=
  "data:image/png;base64," ++ payload

/-- The `except aiohttp.ClientResponseError` handler (lines 142–144) begins
with `error_body = await e.response.text()`, but `aiohttp.ClientResponseError`
has no attribute `response` (it carries only `request_info`, `history`,
`status`, `message`, `headers`), so the handler itself raises
`AttributeError`, which no later `except` clause of the same `try` statement
catches. -/
def clientResponseErrorHandler (_status : Nat) : PipeResult :=
  .raises (.attributeError "'ClientResponseError' object has no attribute 'response'")

/-- `Pipe.pipe` (lines 95–150).  Control flow, in source order:
config check (104–106) short-circuits before any network call; the payload
(114–119) is POSTed; `response.raise_for_status()` (125) raises
`aiohttp.ClientResponseError` when `status ≥ 400`, landing in the handler of
lines 142–144; `await response.json()` (126) raises `json.JSONDecodeError`
when the body is not valid JSON, landing in lines 145–147 where
`response.text()` yields the cached body text; otherwise the locator result
decides between the data URL (134) and the miss message (137). -/
def pipe (valves : Valves) (body : List (String × Json)) (outcome : HttpOutcome) :
    PipeRun :=
  if valves.API_URL == "" || valves.MODEL_ID == "" then
    { result := .yields [configErrorMsg], posted := none }
  else
    let payload := buildPayload valves.MODEL_ID body
    { posted := some payload
      result :=
        match outcome with
        | .transportError desc => .yields [unknownErrorMsg desc]
        | .response status bodyText bodyJson =>
          if 400 ≤ status then
            clientResponseErrorHandler status
          else
            match bodyJson with
            | none => .yields [parseErrorMsg bodyText]
            | some tree =>
              match find_base64_in_response tree with
              | some payloadStr => .yields [formatDataUrl payloadStr]
              | none => .yields [locatorMissMsg] }

theorem pyLookup_cons (p : String × Json) (tl : List (String × Json)) (k : String) :
    pyLookup (p :: tl) k = if p.1 = k then some p.2 else pyLookup tl k := by
  by_cases h : p.1 = k <;> simp [pyLookup, List.find?_cons, h]

theorem pyLookup_assign (d : List (String × Json)) (k' k : String) (v : Json) :
    pyLookup (pyDictAssign d k v) k' = if k' = k then some v else pyLookup d k' := by
  induction d with
  | nil =>
    rw [pyDictAssign, pyLookup_cons]
    by_cases h : k' = k
    · simp [h]
    · simp [h, show ¬ k = k' from fun he => h he.symm, pyLookup]
  | cons p tl ih =>
    by_cases hp : p.1 = k
    · simp only [pyDictAssign, hp, beq_self_eq_true, if_true]
      rw [pyLookup_cons, pyLookup_cons]
      by_cases h : k' = k
      · simp [h]
      · simp [h, show ¬ k = k' from fun he => h he.symm,
          show ¬ p.1 = k' from fun he => h (he.symm.trans hp)]
    · simp only [pyDictAssign, beq_iff_eq, hp, if_false]
      rw [pyLookup_cons, pyLookup_cons]
      by_cases h : p.1 = k'
      · have hk : ¬ k' = k := fun he => hp (h.trans he)
        simp [h, hk]
      · simp [h, ih]

/-- Keys of an insertion-ordered dict. -/
def dictKeys (d : List (String × Json)) : List String :=
  d.map Prod.fst

theorem foldl_assign_absent (l : List (String × Json)) (acc : List (String × Json))
    (k : String) (hk : k ∉ dictKeys l) :
    pyLookup (l.foldl (fun acc p => pyDictAssign acc p.1 p.2) acc) k = pyLookup acc k := by
  induction l generalizing acc with
  | nil => rfl
  | cons p tl ih =>
    simp only [dictKeys, List.map_cons, List.mem_cons] at hk
    push_neg at hk
    rw [List.foldl_cons, ih _ (by simpa [dictKeys] using hk.2),
      pyLookup_assign, if_neg hk.1]

theorem foldl_assign_mem (l : List (String × Json)) (acc : List (String × Json))
    (k : String) (v : Json) (hnd : (dictKeys l).Nodup) (hmem : (k, v) ∈ l) :
    pyLookup (l.foldl (fun acc p => pyDictAssign acc p.1 p.2) acc) k = some v := by
  induction l generalizing acc with
  | nil => simp at hmem
  | cons p tl ih =>
    simp only [dictKeys, List.map_cons, List.nodup_cons] at hnd
    rcases List.mem_cons.1 hmem with h | h
    · subst h
      rw [List.foldl_cons, foldl_assign_absent _ _ _ (by simpa [dictKeys] using hnd.1),
        pyLookup_assign, if_pos rfl]
    · exact List.foldl_cons _ _ ▸ ih _ (by simpa [dictKeys] using hnd.2) h

/-- In the dict built on lines 114–119, any key present in `body` ends up
with `body`'s value: the trailing `**body` expansion overwrites the explicit
assignments. -/
theorem buildPayload_body_wins (model_id : String) (body : List (String × Json))
    (k : String) (v : Json) (hnd : (dictKeys body).Nodup) (hmem : (k, v) ∈ body) :
    pyLookup (buildPayload model_id body) k = some v :=
  foldl_assign_mem body _ k v hnd hmem

theorem fastHit_length {k : String} {v : Json} {s : String}
    (h : fastHit k v = some s) : 100 < s.length := by
  cases v <;> simp [fastHit] at h
  obtain ⟨⟨_, hl⟩, rfl⟩ := h
  exact hl

theorem qualStrings_length {d : Json} {s : String}
    (h : s ∈ qualStrings d) : 100 < s.length := by
  induction d using qualStrings.induct with
  | case1 => simp [qualStrings] at h
  | case2 => simp [qualStrings] at h
  | case3 => simp [qualStrings] at h
  | case4 => simp [qualStrings] at h
  | case5 => simp [qualStrings] at h
  | case6 k v rest ihv ihrest =>
    rw [qualStrings] at h
    rcases List.mem_append.1 h with h' | h'
    · rcases List.mem_append.1 h' with h'' | h''
      · rcases Option.mem_toList.1 h'' with h3
        exact fastHit_length h3
      · exact ihv h''
    · exact ihrest h'
  | case7 => simp [qualStrings] at h
  | case8 item rest ihitem ihrest =>
    rw [qualStrings] at h
    rcases List.mem_append.1 h with h' | h'
    · exact ihitem h'
    · exact ihrest h'

theorem fastHit_spec {k : String} {v : Json} {s : String}
    (h : fastHit k v = some s) :
    v = Json.str s ∧ keyHit k = true ∧ 100 < s.length := by
  cases v <;> simp [fastHit] at h
  obtain ⟨⟨hk, hl⟩, rfl⟩ := h
  exact ⟨rfl, hk, hl⟩

/-- Every qualifying string is the direct value of some dict entry of the
tree whose key passes the key heuristic. -/
theorem qualStrings_mem_entries {d : Json} {s : String}
    (h : s ∈ qualStrings d) :
    ∃ k, (k, Json.str s) ∈ allEntries d ∧ keyHit k = true ∧ 100 < s.length := by
  induction d using qualStrings.induct with
  | case1 => simp [qualStrings] at h
  | case2 => simp [qualStrings] at h
  | case3 => simp [qualStrings] at h
  | case4 => simp [qualStrings] at h
  | case5 => simp [qualStrings] at h
  | case6 k v rest ihv ihrest =>
    rw [qualStrings] at h
    rcases List.mem_append.1 h with h' | h'
    · rcases List.mem_append.1 h' with h'' | h''
      · have h3 := Option.mem_toList.1 h''
        obtain ⟨hv, hk, hl⟩ := fastHit_spec h3
        refine ⟨k, ?_, hk, hl⟩
        rw [allEntries, hv]
        exact List.mem_cons_self _ _
      · obtain ⟨k', hent, hk, hl⟩ := ihv h''
        refine ⟨k', ?_, hk, hl⟩
        rw [allEntries]
        exact List.mem_cons_of_mem _ (List.mem_append_left _ hent)
    · obtain ⟨k', hent, hk, hl⟩ := ihrest h'
      refine ⟨k', ?_, hk, hl⟩
      rw [allEntries]
      exact List.mem_cons_of_mem _ (List.mem_append_right _ hent)
  | case7 => simp [qualStrings] at h
  | case8 item rest ihitem ihrest =>
    rw [qualStrings] at h
    rcases List.mem_append.1 h with h' | h'
    · obtain ⟨k', hent, hk, hl⟩ := ihitem h'
      refine ⟨k', ?_, hk, hl⟩
      rw [allEntries]
      exact List.mem_append_left _ hent
    · obtain ⟨k', hent, hk, hl⟩ := ihrest h'
      refine ⟨k', ?_, hk, hl⟩
      rw [allEntries]
      exact List.mem_append_right _ hent

/-- The locator returns exactly the first qualifying string in pre-order. -/
theorem find_eq_head (d : Json) :
    find_base64_in_response d = (qualStrings d).head? := by
  induction d using qualStrings.induct with
  | case1 s => simp [find_base64_in_response, qualStrings]
  | case2 => simp [find_base64_in_response, qualStrings]
  | case3 => simp [find_base64_in_response, qualStrings]
  | case4 => simp [find_base64_in_response, qualStrings]
  | case5 => simp [find_base64_in_response, qualStrings]
  | case6 k v rest ihv ihrest =>
    cases hfast : fastHit k v with
    | some s =>
      simp [find_base64_in_response, qualStrings, hfast]
    | none =>
      simp only [find_base64_in_response, qualStrings, hfast, Option.toList_none,
        List.nil_append]
      rw [ihv]
      cases hq : qualStrings v with
      | nil => simpa [pyTruthy] using ihrest
      | cons s tl =>
        have hlen : 100 < s.length :=
          qualStrings_length (by rw [hq]; exact List.mem_cons_self s tl)
        have hne : s ≠ "" := by
          intro he; rw [he] at hlen; simp at hlen
        simp [pyTruthy, hne]
  | case7 => simp [find_base64_in_response, qualStrings]
  | case8 item rest ihitem ihrest =>
    simp only [find_base64_in_response, qualStrings]
    rw [ihitem]
    cases hq : qualStrings item with
    | nil => simpa [pyTruthy] using ihrest
    | cons s tl =>
      have hlen : 100 < s.length :=
        qualStrings_length (by rw [hq]; exact List.mem_cons_self s tl)
      have hne : s ≠ "" := by
        intro he; rw [he] at hlen; simp at hlen
      simp [pyTruthy, hne]

end ImageDecoderPipe

namespace ImageDecoderPipe

/-! ## Concrete example data -/

/-- A 101-character string: long enough to pass the `len(value) > 100`
heuristic. -/
def longA : String := String.mk (List.replicate 101 'A')

/-- A second, distinct 101-character string. -/
def longB : String := String.mk (List.replicate 101 'B')

/-- The strings of length > 100 appearing as the direct value of a dict key
that contains `"base64"` — the objects the spec's Locator property
quantifies over. -/
def base64KeyStrings (d : Json) : List String :=
  (allEntries d).filterMap fun p =>
    match p.2 with
    | .str s => if pyStrIn "base64" p.1 && decide (100 < s.length) then some s else none
    | _ => none

/-- Tree with exactly one long string under a `"base64"` key (`longB`), but
with an earlier sibling whose key contains `"image"` holding `longA`. -/
def c2ce : Json := Json.obj [("aimagea", .str longA), ("xbase64", .str longB)]

/-- Tree whose unique qualifying string sits deeply nested under a key
containing `"base64"`, with non-qualifying siblings around it. -/
def c2w : Json :=
  Json.obj [("choices", .arr [Json.obj [("message",
    Json.obj [("content_base64", .str longA)])]]), ("note", .str "ok")]

/-- Tree with two qualifying strings at different positions: `longA` nested
under the first key, `longB` at top level under the second. -/
def c5ex : Json :=
  Json.obj [("data", .arr [Json.obj [("image", .str longA)]]),
    ("b64_payload", .str longB)]

end ImageDecoderPipe

namespace ImageDecoderPipe

/-! ## Claims -/

/-- C2 (counterexample): `c2ce` contains exactly one string of length > 100
under a key containing `"base64"` (namely `longB`), yet the locator returns
`longA`, found earlier under the sibling key `"aimagea"`, which contains
`"image"`. -/
theorem c2_counterexample :
    base64KeyStrings c2ce = [longB]
    ∧ find_base64_in_response c2ce = some longA
    ∧ longA ≠ longB := by
  refine ⟨?_, ?_, by decide⟩
  · simp only [c2ce, base64KeyStrings, allEntries]
    decide
  · simp only [c2ce, find_base64_in_response]
    decide

/-- C2 (amended): for every JSON tree containing exactly one qualifying
occurrence — a string of length > 100 that is the direct value of a mapping
key containing `"b64"`, `"base64"`, or `"image"` — the locator returns that
string, regardless of nesting depth or surrounding sibling structure. -/
theorem c2_unique_qualifying_found (d : Json) (s : String)
    (h : qualStrings d = [s]) :
    find_base64_in_response d = some s := by
  rw [find_eq_head d, h]
  rfl

/-- C2 witness: the amended theorem applied to the deeply nested tree
`c2w`, whose unique qualifying string is `longA`. -/
theorem c2_witness :
    qualStrings c2w = [longA] ∧ find_base64_in_response c2w = some longA := by
  have hq : qualStrings c2w = [longA] := by
    simp only [c2w, qualStrings]
    decide
  exact ⟨hq, c2_unique_qualifying_found c2w longA hq⟩

/-- C5: when two or more qualifying strings exist, the locator returns the
first one encountered in depth-first pre-order traversal (dict entries in
the mapping's insertion order — the fast-path check on an entry before the
descent into its value — and list elements in order), i.e. the head of
`qualStrings`. -/
theorem c5_first_preorder_wins (d : Json)
    (_h : 2 ≤ (qualStrings d).length) :
    find_base64_in_response d = (qualStrings d).head? :=
  find_eq_head d

/-- C5 witness: on `c5ex` the qualifying strings are `[longA, longB]` and
the locator returns the pre-order-first one, `longA`, even though `longB`
sits less deeply nested. -/
theorem c5_witness :
    2 ≤ (qualStrings c5ex).length
    ∧ find_base64_in_response c5ex = (qualStrings c5ex).head?
    ∧ (qualStrings c5ex).head? = some longA := by
  have hq : qualStrings c5ex = [longA, longB] := by
    simp only [c5ex, qualStrings]
    decide
  refine ⟨by rw [hq]; decide, c5_first_preorder_wins c5ex ?_, by rw [hq]; rfl⟩
  rw [hq]
  decide

end ImageDecoderPipe

namespace ImageDecoderPipe

/-- C1 (counterexample): with configured model id `"m"` and an input body
already carrying `"model" ↦ "x"`, the dispatched payload carries `"x"`, not
the configured `"m"`: the `**body` expansion on line 118 comes after the
explicit assignments and therefore overwrites them. -/
theorem c1_counterexample :
    ((pipe ⟨"http://u", "", "m"⟩ [("model", Json.str "x")]
        (.response 200 "ok" (some (Json.obj [])))).posted).map
      (fun pl => pyLookup pl "model") = some (some (Json.str "x"))
    ∧ Json.str "x" ≠ Json.str "m" := by
  refine ⟨rfl, ?_⟩
  intro h
  injection h with h'
  exact absurd h' (by decide)

/-- C1 (amended): in the outbound request body built by `pipe`, duplicate
keys coming from the verbatim passthrough of the original conversation
payload take precedence over the explicitly assigned fields `model`,
`messages`, and `stream`: for every key present in the input body, the
dispatched payload carries the body's value for that key.  (For `messages`
and `stream` this coincides with what the core assigns, since those explicit
values are themselves read from the body; for `model` it means the body's
value wins over the configured model id.) -/
theorem c1_passthrough_overrides (valves : Valves) (body : List (String × Json))
    (outcome : HttpOutcome) (k : String) (v : Json)
    (hurl : valves.API_URL ≠ "") (hmid : valves.MODEL_ID ≠ "")
    (hnd : (dictKeys body).Nodup) (hmem : (k, v) ∈ body) :
    (pipe valves body outcome).posted = some (buildPayload valves.MODEL_ID body)
    ∧ pyLookup (buildPayload valves.MODEL_ID body) k = some v := by
  constructor
  · simp [pipe, hurl, hmid]
  · exact buildPayload_body_wins valves.MODEL_ID body k v hnd hmem

/-- C1 witness: the amended theorem at a concrete input whose body carries
`"model" ↦ "x"` against configured model id `"m"`. -/
theorem c1_witness :
    (("http://u" : String) ≠ "" ∧ ("m" : String) ≠ ""
      ∧ (dictKeys [("model", Json.str "x")]).Nodup
      ∧ ("model", Json.str "x") ∈ [("model", Json.str "x")])
    ∧ ((pipe ⟨"http://u", "", "m"⟩ [("model", Json.str "x")]
          (.transportError "refused")).posted
        = some (buildPayload "m" [("model", Json.str "x")])
      ∧ pyLookup (buildPayload "m" [("model", Json.str "x")]) "model"
        = some (Json.str "x")) :=
  ⟨⟨by decide, by decide, by simp [dictKeys], by simp⟩,
    c1_passthrough_overrides ⟨"http://u", "", "m"⟩ [("model", Json.str "x")]
      (.transportError "refused") "model" (Json.str "x")
      (by decide) (by decide) (by simp [dictKeys]) (by simp)⟩

/-- C3 (code evaluated at the failing input): for an HTTP 404 outcome the
generator does not yield a descriptive string — the
`except aiohttp.ClientResponseError` handler itself raises `AttributeError`
(the exception object has no `response` attribute), and an exception raised
inside an `except` clause is not caught by the later clauses of the same
`try`, so it propagates to the host. -/
theorem c3_http_error_path_raises :
    (pipe ⟨"http://u", "", "m"⟩ [] (.response 404 "not found" none)).result
      = .raises (.attributeError
          "'ClientResponseError' object has no attribute 'response'") :=
  rfl

/-- C4 (code evaluated at the failing input): for status 500 with body
`"server error"` the pipe produces no string at all — the handler of lines
142–144 raises `AttributeError` instead — so no result string containing
`500` and `"server error"` is ever yielded. -/
theorem c4_http_500_raises :
    (pipe ⟨"http://u", "", "m"⟩ [] (.response 500 "server error" none)).result
      = .raises (.attributeError
          "'ClientResponseError' object has no attribute 'response'") :=
  rfl

/-- C6: when the configured API URL or model id is the empty string, `pipe`
yields exactly the configuration-error message and terminates, and the
network client is never invoked (nothing is POSTed), whatever the network
oracle would have answered. -/
theorem c6_config_error_no_call (valves : Valves) (body : List (String × Json))
    (outcome : HttpOutcome)
    (h : valves.API_URL = "" ∨ valves.MODEL_ID = "") :
    pipe valves body outcome = { result := .yields [configErrorMsg], posted := none } := by
  rcases h with h | h <;> simp [pipe, h]

/-- C6 witness: the theorem at an empty API URL. -/
theorem c6_witness :
    (("" : String) = "" ∨ ("m" : String) = "")
    ∧ pipe ⟨"", "secret", "m"⟩ [] (.transportError "refused")
      = { result := .yields [configErrorMsg], posted := none } :=
  ⟨Or.inl rfl,
    c6_config_error_no_call ⟨"", "secret", "m"⟩ [] (.transportError "refused")
      (Or.inl rfl)⟩

end ImageDecoderPipe

namespace ImageDecoderPipe

/-- C7: when the configuration is complete, the response status is below 400
and its body fails to parse as JSON, `pipe` yields exactly one error string,
built from the first 500 characters of the raw body (so the excerpt is at
most 500 characters long), and raises nothing. -/
theorem c7_parse_error_excerpt (valves : Valves) (body : List (String × Json))
    (status : Nat) (bodyText : String)
    (hurl : valves.API_URL ≠ "") (hmid : valves.MODEL_ID ≠ "")
    (hst : status < 400) :
    (pipe valves body (.response status bodyText none)).result
      = .yields [parseErrorMsg bodyText]
    ∧ (pySlice500 bodyText).length ≤ 500 := by
  constructor
  · simp [pipe, hurl, hmid, Nat.not_le.2 hst]
  · show (bodyText.toList.take 500).length ≤ 500
    rw [List.length_take]
    exact min_le_left _ _

/-- C7 witness: the theorem at the body `"not json"`; since that body is
shorter than 500 characters the excerpt inside the message is `"not json"`
itself. -/
theorem c7_witness :
    (("http://u" : String) ≠ "" ∧ ("m" : String) ≠ "" ∧ (200 : Nat) < 400)
    ∧ ((pipe ⟨"http://u", "", "m"⟩ [] (.response 200 "not json" none)).result
        = .yields [parseErrorMsg "not json"]
      ∧ (pySlice500 "not json").length ≤ 500)
    ∧ pySlice500 "not json" = "not json" :=
  ⟨⟨by decide, by decide, by decide⟩,
    c7_parse_error_excerpt ⟨"http://u", "", "m"⟩ [] 200 "not json"
      (by decide) (by decide) (by decide),
    by decide⟩

/-- C8: whenever the locator finds a payload `p` in the parsed response, the
success path yields exactly `"data:image/png;base64," ++ p`; and the
formatting step of line 134 applied to the payload `"QUJD"` gives exactly
`"data:image/png;base64,QUJD"`. -/
theorem c8_data_url_format (valves : Valves) (body : List (String × Json))
    (status : Nat) (bodyText : String) (tree : Json) (p : String)
    (hurl : valves.API_URL ≠ "") (hmid : valves.MODEL_ID ≠ "")
    (hst : status < 400) (hfound : find_base64_in_response tree = some p) :
    (pipe valves body (.response status bodyText (some tree))).result
      = .yields ["data:image/png;base64," ++ p]
    ∧ formatDataUrl "QUJD" = "data:image/png;base64,QUJD" := by
  constructor
  · simp [pipe, hurl, hmid, Nat.not_le.2 hst, hfound, formatDataUrl]
  · rfl

/-- C8 witness: the theorem at a response whose tree holds `longA` under the
key `"base64"`. -/
theorem c8_witness :
    (("http://u" : String) ≠ "" ∧ ("m" : String) ≠ "" ∧ (200 : Nat) < 400
      ∧ find_base64_in_response (Json.obj [("base64", .str longA)]) = some longA)
    ∧ ((pipe ⟨"http://u", "", "m"⟩ [] (.response 200 "raw"
          (some (Json.obj [("base64", .str longA)])))).result
        = .yields ["data:image/png;base64," ++ longA]
      ∧ formatDataUrl "QUJD" = "data:image/png;base64,QUJD") := by
  have hfound : find_base64_in_response (Json.obj [("base64", .str longA)])
      = some longA := by
    simp only [find_base64_in_response]
    decide
  exact ⟨⟨by decide, by decide, by decide, hfound⟩,
    c8_data_url_format ⟨"http://u", "", "m"⟩ [] 200 "raw"
      (Json.obj [("base64", .str longA)]) longA
      (by decide) (by decide) (by decide) hfound⟩

/-- C9: whenever the locator returns a string rather than `None`, that
string has length strictly greater than 100 and occurs in the input tree as
the direct value of a dict entry whose key contains `"b64"`, `"base64"`, or
`"image"`. -/
theorem c9_result_is_qualifying (d : Json) (s : String)
    (h : find_base64_in_response d = some s) :
    100 < s.length ∧ ∃ k, (k, Json.str s) ∈ allEntries d ∧ keyHit k = true := by
  rw [find_eq_head] at h
  have hs : s ∈ qualStrings d := by
    cases hq : qualStrings d with
    | nil => rw [hq] at h; simp at h
    | cons a tl =>
      rw [hq] at h
      simp only [List.head?_cons, Option.some.injEq] at h
      rw [h]
      exact List.mem_cons_self _ _
  obtain ⟨k, hent, hk, hl⟩ := qualStrings_mem_entries hs
  exact ⟨hl, k, hent, hk⟩

/-- C9 witness: the theorem at a tree holding `longA` under `"image_data"`. -/
theorem c9_witness :
    find_base64_in_response (Json.obj [("image_data", .str longA)]) = some longA
    ∧ (100 < longA.length
      ∧ ∃ k, (k, Json.str longA) ∈ allEntries (Json.obj [("image_data", .str longA)])
          ∧ keyHit k = true) := by
  have hfound : find_base64_in_response (Json.obj [("image_data", .str longA)])
      = some longA := by
    simp only [find_base64_in_response]
    decide
  exact ⟨hfound, c9_result_is_qualifying _ longA hfound⟩

/-- C10: a qualifying-length string that is not the direct value of a dict
entry is never returned: if no dict entry anywhere in the tree has a string
value longer than 100 characters — in particular when every long string
occurs only as a list element or as the tree's root — the locator returns
`None`. -/
theorem c10_no_entry_no_result (d : Json)
    (h : ∀ p ∈ allEntries d, ∀ s, p.2 = Json.str s → s.length ≤ 100) :
    find_base64_in_response d = none := by
  rw [find_eq_head]
  cases hq : qualStrings d with
  | nil => rfl
  | cons s tl =>
    exfalso
    have hs : s ∈ qualStrings d := by
      rw [hq]
      exact List.mem_cons_self _ _
    obtain ⟨k, hent, _, hl⟩ := qualStrings_mem_entries hs
    have hle := h (k, Json.str s) hent s rfl
    omega

/-- C10 witness: the theorem at `{"images": [longA]}` (the long string only
a list element) and at the bare root string `longA`. -/
theorem c10_witness :
    ((∀ p ∈ allEntries (Json.obj [("images", .arr [.str longA])]),
        ∀ s, p.2 = Json.str s → s.length ≤ 100)
      ∧ find_base64_in_response (Json.obj [("images", .arr [.str longA])]) = none)
    ∧ find_base64_in_response (Json.str longA) = none := by
  have hent : ∀ p ∈ allEntries (Json.obj [("images", .arr [.str longA])]),
      ∀ s, p.2 = Json.str s → s.length ≤ 100 := by
    have he : allEntries (Json.obj [("images", .arr [.str longA])])
        = [("images", .arr [.str longA])] := by
      simp [allEntries]
    rw [he]
    intro p hp s hs
    simp only [List.mem_singleton] at hp
    subst hp
    simp at hs
  exact ⟨⟨hent, c10_no_entry_no_result _ hent⟩,
    c10_no_entry_no_result (Json.str longA) (by simp [allEntries])⟩

end ImageDecoderPipe
